import Mathlib

/-!
Verification of the gostacode repository: a bidirectional mapping between
HTTP status codes and gRPC status codes.

The repository contains two implementations of the same package:
`gostacode.go` (tables `httpToGRPCMap` / `grpcToHTTPMap`) and an unnamed
earlier file (tables `httpGRPCCodeMap` / `grpcHTTPCodeMap`).  Each exposes
`GRPCCodeFromHTTPStatusCode : int → codes.Code` and
`HTTPStatusCodeFromGRPCCode : codes.Code → int`, implemented as a Go map
lookup with a fallback value (`codes.Unknown` forward, `500` reverse).

Embedding choices:
* Go's `codes.Code` is a `uint32`; we model it as `Nat` with the constants
  of `google.golang.org/grpc/codes` (OK = 0 … Unauthenticated = 16).
* Go's `int` (HTTP status code) is modelled as `Int`.
* A Go map literal with distinct keys is modelled as an association list
  together with a lookup function `mapLookup`; since the keys are distinct,
  lookup order is irrelevant and the source order of entries is kept.
-/

namespace codes

def OK : Nat := 0
def Canceled : Nat := 1
def Unknown : Nat := 2
def InvalidArgument : Nat := 3
def DeadlineExceeded : Nat := 4
def NotFound : Nat := 5
def AlreadyExists : Nat := 6
def PermissionDenied : Nat := 7
def ResourceExhausted : Nat := 8
def FailedPrecondition : Nat := 9
def Aborted : Nat := 10
def OutOfRange : Nat := 11
def Unimplemented : Nat := 12
def Internal : Nat := 13
def Unavailable : Nat := 14
def DataLoss : Nat := 15
def Unauthenticated : Nat := 16

end codes

/-- Lookup in an association list, modelling Go's `m[key]` with its
comma-ok result: `some v` when the key is present, `none` otherwise. -/
def mapLookup {α β : Type} [DecidableEq α] : List (α × β) → α → Option β
  | [], _ => none
  | (k, v) :: rest, key => if key = k then some v else mapLookup rest key

namespace Gostacode

/-- Table `httpToGRPCMap` of `src/gostacode.go` (lines 14-33). -/
def httpToGRPCMap : List (Int × Nat) :=
  [(200, codes.OK),
   (201, codes.OK),
   (400, codes.InvalidArgument),
   (401, codes.Unauthenticated),
   (403, codes.PermissionDenied),
   (404, codes.NotFound),
   (409, codes.AlreadyExists),
   (429, codes.ResourceExhausted),
   (500, codes.Internal),
   (501, codes.Unimplemented),
   (502, codes.Unavailable),
   (503, codes.Unavailable),
   (504, codes.DeadlineExceeded)]

/-- Table `grpcToHTTPMap` of `src/gostacode.go` (lines 37-55); note the
explicit `Canceled → 500` entry added at the end. -/
def grpcToHTTPMap : List (Nat × Int) :=
  [(codes.OK, 200),
   (codes.Unknown, 500),
   (codes.InvalidArgument, 400),
   (codes.DeadlineExceeded, 504),
   (codes.NotFound, 404),
   (codes.AlreadyExists, 409),
   (codes.PermissionDenied, 403),
   (codes.Unauthenticated, 401),
   (codes.ResourceExhausted, 429),
   (codes.FailedPrecondition, 400),
   (codes.Aborted, 409),
   (codes.OutOfRange, 400),
   (codes.Unimplemented, 501),
   (codes.Internal, 500),
   (codes.Unavailable, 503),
   (codes.DataLoss, 500),
   (codes.Canceled, 500)]

/-- `GRPCCodeFromHTTPStatusCode` of `src/gostacode.go` (lines 65-70). -/
def GRPCCodeFromHTTPStatusCode (httpStatusCode : Int) : Nat :=
  match mapLookup httpToGRPCMap httpStatusCode with
  | some grpcCode => grpcCode
  | none => codes.Unknown

/-- `HTTPStatusCodeFromGRPCCode` of `src/gostacode.go` (lines 80-85). -/
def HTTPStatusCodeFromGRPCCode (grpcCode : Nat) : Int :=
  match mapLookup grpcToHTTPMap grpcCode with
  | some httpStatusCode => httpStatusCode
  | none => 500

end Gostacode

namespace GostacodeUnnamed

/-- Table `httpGRPCCodeMap` of `src/unnamed/part_000` (lines 10-26). -/
def httpGRPCCodeMap : List (Int × Nat) :=
  [(200, codes.OK),
   (201, codes.OK),
   (400, codes.InvalidArgument),
   (401, codes.Unauthenticated),
   (403, codes.PermissionDenied),
   (404, codes.NotFound),
   (409, codes.AlreadyExists),
   (429, codes.ResourceExhausted),
   (500, codes.Internal),
   (501, codes.Unimplemented),
   (502, codes.Unavailable),
   (503, codes.Unavailable),
   (504, codes.DeadlineExceeded)]

/-- Table `grpcHTTPCodeMap` of `src/unnamed/part_000` (lines 28-45); it has
no entry for `Canceled`. -/
def grpcHTTPCodeMap : List (Nat × Int) :=
  [(codes.OK, 200),
   (codes.Unknown, 500),
   (codes.InvalidArgument, 400),
   (codes.DeadlineExceeded, 504),
   (codes.NotFound, 404),
   (codes.AlreadyExists, 409),
   (codes.PermissionDenied, 403),
   (codes.Unauthenticated, 401),
   (codes.ResourceExhausted, 429),
   (codes.FailedPrecondition, 400),
   (codes.Aborted, 409),
   (codes.OutOfRange, 400),
   (codes.Unimplemented, 501),
   (codes.Internal, 500),
   (codes.Unavailable, 503),
   (codes.DataLoss, 500)]

/-- `GRPCCodeFromHTTPStatusCode` of `src/unnamed/part_000` (lines 48-60). -/
def GRPCCodeFromHTTPStatusCode (httpStatusCode : Int) : Nat :=
  match mapLookup httpGRPCCodeMap httpStatusCode with
  | some grpcCode => grpcCode
  | none => codes.Unknown

/-- `HTTPStatusCodeFromGRPCCode` of `src/unnamed/part_000` (lines 62-74). -/
def HTTPStatusCodeFromGRPCCode (grpcCode : Nat) : Int :=
  match mapLookup grpcHTTPCodeMap grpcCode with
  | some httpStatusCode => httpStatusCode
  | none => 500

end GostacodeUnnamed

/-- The 17 recognized gRPC codes, in enumeration order. -/
def allCodes : List Nat :=
  [codes.OK, codes.Canceled, codes.Unknown, codes.InvalidArgument,
   codes.DeadlineExceeded, codes.NotFound, codes.AlreadyExists,
   codes.PermissionDenied, codes.ResourceExhausted, codes.FailedPrecondition,
   codes.Aborted, codes.OutOfRange, codes.Unimplemented, codes.Internal,
   codes.Unavailable, codes.DataLoss, codes.Unauthenticated]

/-- The 11 gRPC codes appearing as values of the forward table. -/
def forwardImage : List Nat :=
  [codes.OK, codes.InvalidArgument, codes.Unauthenticated,
   codes.PermissionDenied, codes.NotFound, codes.AlreadyExists,
   codes.ResourceExhausted, codes.Internal, codes.Unimplemented,
   codes.Unavailable, codes.DeadlineExceeded]

/-- The 12 gRPC codes the forward direction can ever return: the forward
table's image plus the fallback `Unknown`. -/
def forwardImageWithUnknown : List Nat :=
  codes.Unknown :: forwardImage

theorem mapLookup_eq_none_of_not_mem {α β : Type} [DecidableEq α]
    (l : List (α × β)) (key : α) (h : key ∉ l.map Prod.fst) :
    mapLookup l key = none := by
  induction l with
  | nil => rfl
  | cons p rest ih =>
    obtain ⟨k, v⟩ := p
    simp only [List.map_cons, List.mem_cons] at h
    push_neg at h
    simp only [mapLookup, if_neg h.1]
    exact ih h.2

theorem mapLookup_mem_values {α β : Type} [DecidableEq α]
    (l : List (α × β)) (key : α) (v : β) (h : mapLookup l key = some v) :
    v ∈ l.map Prod.snd := by
  induction l with
  | nil => simp [mapLookup] at h
  | cons p rest ih =>
    obtain ⟨k, w⟩ := p
    by_cases hk : key = k
    · simp only [mapLookup, if_pos hk, Option.some.injEq] at h
      simp [h]
    · simp only [mapLookup, if_neg hk] at h
      exact List.mem_cons_of_mem _ (ih h)

theorem grpc_forward_range (s : Int) :
    Gostacode.GRPCCodeFromHTTPStatusCode s ∈ forwardImageWithUnknown := by
  unfold Gostacode.GRPCCodeFromHTTPStatusCode
  cases h : mapLookup Gostacode.httpToGRPCMap s with
  | none => decide
  | some v =>
    have hv := mapLookup_mem_values _ _ _ h
    simp only [Gostacode.httpToGRPCMap, List.map_cons, List.map_nil,
      List.mem_cons, List.not_mem_nil, or_false] at hv
    rcases hv with h' | h' | h' | h' | h' | h' | h' | h' | h' | h' | h' | h' | h' <;>
      subst h' <;> decide

/-- Claim C1: for every HTTP status code in the forward table,
`GRPCCodeFromHTTPStatusCode` returns exactly the gRPC code the forward
table assigns to it: 200→OK, 201→OK, 400→InvalidArgument,
401→Unauthenticated, 403→PermissionDenied, 404→NotFound, 409→AlreadyExists,
429→ResourceExhausted, 500→Internal, 501→Unimplemented, 502→Unavailable,
503→Unavailable, 504→DeadlineExceeded. -/
theorem forward_table_exact :
    Gostacode.GRPCCodeFromHTTPStatusCode 200 = codes.OK ∧
    Gostacode.GRPCCodeFromHTTPStatusCode 201 = codes.OK ∧
    Gostacode.GRPCCodeFromHTTPStatusCode 400 = codes.InvalidArgument ∧
    Gostacode.GRPCCodeFromHTTPStatusCode 401 = codes.Unauthenticated ∧
    Gostacode.GRPCCodeFromHTTPStatusCode 403 = codes.PermissionDenied ∧
    Gostacode.GRPCCodeFromHTTPStatusCode 404 = codes.NotFound ∧
    Gostacode.GRPCCodeFromHTTPStatusCode 409 = codes.AlreadyExists ∧
    Gostacode.GRPCCodeFromHTTPStatusCode 429 = codes.ResourceExhausted ∧
    Gostacode.GRPCCodeFromHTTPStatusCode 500 = codes.Internal ∧
    Gostacode.GRPCCodeFromHTTPStatusCode 501 = codes.Unimplemented ∧
    Gostacode.GRPCCodeFromHTTPStatusCode 502 = codes.Unavailable ∧
    Gostacode.GRPCCodeFromHTTPStatusCode 503 = codes.Unavailable ∧
    Gostacode.GRPCCodeFromHTTPStatusCode 504 = codes.DeadlineExceeded := by
  decide

/-- Claim C2: for every one of the 17 recognized gRPC codes,
`HTTPStatusCodeFromGRPCCode` returns exactly the HTTP status code the
reverse table assigns to it: OK→200, Canceled→500, Unknown→500,
InvalidArgument→400, DeadlineExceeded→504, NotFound→404, AlreadyExists→409,
PermissionDenied→403, Unauthenticated→401, ResourceExhausted→429,
FailedPrecondition→400, Aborted→409, OutOfRange→400, Unimplemented→501,
Internal→500, Unavailable→503, DataLoss→500. -/
theorem reverse_table_exact :
    Gostacode.HTTPStatusCodeFromGRPCCode codes.OK = 200 ∧
    Gostacode.HTTPStatusCodeFromGRPCCode codes.Canceled = 500 ∧
    Gostacode.HTTPStatusCodeFromGRPCCode codes.Unknown = 500 ∧
    Gostacode.HTTPStatusCodeFromGRPCCode codes.InvalidArgument = 400 ∧
    Gostacode.HTTPStatusCodeFromGRPCCode codes.DeadlineExceeded = 504 ∧
    Gostacode.HTTPStatusCodeFromGRPCCode codes.NotFound = 404 ∧
    Gostacode.HTTPStatusCodeFromGRPCCode codes.AlreadyExists = 409 ∧
    Gostacode.HTTPStatusCodeFromGRPCCode codes.PermissionDenied = 403 ∧
    Gostacode.HTTPStatusCodeFromGRPCCode codes.Unauthenticated = 401 ∧
    Gostacode.HTTPStatusCodeFromGRPCCode codes.ResourceExhausted = 429 ∧
    Gostacode.HTTPStatusCodeFromGRPCCode codes.FailedPrecondition = 400 ∧
    Gostacode.HTTPStatusCodeFromGRPCCode codes.Aborted = 409 ∧
    Gostacode.HTTPStatusCodeFromGRPCCode codes.OutOfRange = 400 ∧
    Gostacode.HTTPStatusCodeFromGRPCCode codes.Unimplemented = 501 ∧
    Gostacode.HTTPStatusCodeFromGRPCCode codes.Internal = 500 ∧
    Gostacode.HTTPStatusCodeFromGRPCCode codes.Unavailable = 503 ∧
    Gostacode.HTTPStatusCodeFromGRPCCode codes.DataLoss = 500 := by
  decide

/-- Claim C3: for every integer that is not a key of the forward table,
`GRPCCodeFromHTTPStatusCode` returns `codes.Unknown` (the function is total
over all integers by construction and never signals an error). -/
theorem forward_fallback_unknown (s : Int)
    (h : s ∉ Gostacode.httpToGRPCMap.map Prod.fst) :
    Gostacode.GRPCCodeFromHTTPStatusCode s = codes.Unknown := by
  unfold Gostacode.GRPCCodeFromHTTPStatusCode
  rw [mapLookup_eq_none_of_not_mem _ _ h]

/-- Claim C3 witness: 999 is not a key of the forward table and maps to
`codes.Unknown`. -/
theorem forward_fallback_unknown_witness :
    (999 : Int) ∉ Gostacode.httpToGRPCMap.map Prod.fst ∧
    Gostacode.GRPCCodeFromHTTPStatusCode 999 = codes.Unknown :=
  ⟨by decide, forward_fallback_unknown 999 (by decide)⟩

/-- Claim C4: for every gRPC-code value that is not a key of the reverse
table, `HTTPStatusCodeFromGRPCCode` returns 500 (the function is total over
all such inputs by construction and never signals an error). -/
theorem reverse_fallback_500 (c : Nat)
    (h : c ∉ Gostacode.grpcToHTTPMap.map Prod.fst) :
    Gostacode.HTTPStatusCodeFromGRPCCode c = 500 := by
  unfold Gostacode.HTTPStatusCodeFromGRPCCode
  rw [mapLookup_eq_none_of_not_mem _ _ h]

/-- Claim C4 witness: the out-of-enumeration value 999 is not a key of the
reverse table and maps to 500. -/
theorem reverse_fallback_500_witness :
    (999 : Nat) ∉ Gostacode.grpcToHTTPMap.map Prod.fst ∧
    Gostacode.HTTPStatusCodeFromGRPCCode 999 = 500 :=
  ⟨by decide, reverse_fallback_500 999 (by decide)⟩

/-- Claim C5 counterexample: in the reverse table `grpcHTTPCodeMap` of
`src/unnamed/part_000`, the recognized gRPC code `Canceled` has no explicit
entry, so its reverse lookup falls through to the fallback branch — the
claim that every one of the 17 recognized codes has its own explicit entry
in the reverse table fails for this table at input `Canceled`. -/
theorem reverse_table_totality_cex :
    codes.Canceled ∉ GostacodeUnnamed.grpcHTTPCodeMap.map Prod.fst ∧
    mapLookup GostacodeUnnamed.grpcHTTPCodeMap codes.Canceled = none := by
  decide

/-- Claim C5 (amended): in `src/gostacode.go`, the reverse table
`grpcToHTTPMap` is total over the 17 recognized gRPC codes — every code
including `Canceled` has its own explicit entry, so the reverse lookup
succeeds rather than falling through to the fallback branch.  In
`src/unnamed/part_000`, the reverse table `grpcHTTPCodeMap` has explicit
entries for only the 16 codes other than `Canceled`; the lookup for
`Canceled` falls through to the fallback branch, which also returns 500. -/
theorem reverse_table_totality_split :
    (allCodes.all fun c => (mapLookup Gostacode.grpcToHTTPMap c).isSome) = true ∧
    mapLookup GostacodeUnnamed.grpcHTTPCodeMap codes.Canceled = none ∧
    GostacodeUnnamed.HTTPStatusCodeFromGRPCCode codes.Canceled = 500 ∧
    (allCodes.all fun c =>
      (c == codes.Canceled) || (mapLookup GostacodeUnnamed.grpcHTTPCodeMap c).isSome) = true := by
  decide

/-- Claim C6: the two implementations are extensionally equivalent: the two
`GRPCCodeFromHTTPStatusCode` functions agree on every integer, and the two
`HTTPStatusCodeFromGRPCCode` functions agree on every gRPC-code value (for
`Canceled` both return 500, one via an explicit table entry and one via the
fallback). -/
theorem implementations_equivalent :
    (∀ s : Int, Gostacode.GRPCCodeFromHTTPStatusCode s =
      GostacodeUnnamed.GRPCCodeFromHTTPStatusCode s) ∧
    (∀ c : Nat, Gostacode.HTTPStatusCodeFromGRPCCode c =
      GostacodeUnnamed.HTTPStatusCodeFromGRPCCode c) := by
  constructor
  · intro s
    rfl
  · intro c
    by_cases hc : c < 17
    · interval_cases c <;> rfl
    · push_neg at hc
      have h1 : mapLookup Gostacode.grpcToHTTPMap c = none := by
        apply mapLookup_eq_none_of_not_mem
        simp [Gostacode.grpcToHTTPMap, codes.OK, codes.Canceled,
          codes.Unknown, codes.InvalidArgument, codes.DeadlineExceeded,
          codes.NotFound, codes.AlreadyExists, codes.PermissionDenied,
          codes.ResourceExhausted, codes.FailedPrecondition, codes.Aborted,
          codes.OutOfRange, codes.Unimplemented, codes.Internal,
          codes.Unavailable, codes.DataLoss, codes.Unauthenticated]
        omega
      have h2 : mapLookup GostacodeUnnamed.grpcHTTPCodeMap c = none := by
        apply mapLookup_eq_none_of_not_mem
        simp [GostacodeUnnamed.grpcHTTPCodeMap, codes.OK, codes.Canceled,
          codes.Unknown, codes.InvalidArgument, codes.DeadlineExceeded,
          codes.NotFound, codes.AlreadyExists, codes.PermissionDenied,
          codes.ResourceExhausted, codes.FailedPrecondition, codes.Aborted,
          codes.OutOfRange, codes.Unimplemented, codes.Internal,
          codes.Unavailable, codes.DataLoss, codes.Unauthenticated]
        omega
      unfold Gostacode.HTTPStatusCodeFromGRPCCode
        GostacodeUnnamed.HTTPStatusCodeFromGRPCCode
      rw [h1, h2]

/-- Claim C7: the recognized gRPC code `Canceled` is never returned by
`GRPCCodeFromHTTPStatusCode` (no integer forward-maps to it); the forward
table is not injective (502 and 503 both map to `Unavailable` though
502 ≠ 503); hence the two tables are not mutual inverses: some input
does not survive the forward-then-reverse round trip. -/
theorem tables_not_mutual_inverses :
    (∀ s : Int, Gostacode.GRPCCodeFromHTTPStatusCode s ≠ codes.Canceled) ∧
    (Gostacode.GRPCCodeFromHTTPStatusCode 502 = codes.Unavailable ∧
     Gostacode.GRPCCodeFromHTTPStatusCode 503 = codes.Unavailable ∧
     (502 : Int) ≠ 503) ∧
    (∃ s : Int, Gostacode.HTTPStatusCodeFromGRPCCode
      (Gostacode.GRPCCodeFromHTTPStatusCode s) ≠ s) := by
  refine ⟨?_, by decide, ⟨201, by decide⟩⟩
  intro s hEq
  have hmem := grpc_forward_range s
  rw [hEq] at hmem
  revert hmem
  decide

/-- Claim C8: for every gRPC code in the image of the forward table,
composing `HTTPStatusCodeFromGRPCCode` with `GRPCCodeFromHTTPStatusCode`
is the identity. -/
theorem forward_reverse_roundtrip (r : Nat) (h : r ∈ forwardImage) :
    Gostacode.GRPCCodeFromHTTPStatusCode
      (Gostacode.HTTPStatusCodeFromGRPCCode r) = r := by
  fin_cases h <;> rfl

/-- Claim C8 witness: `NotFound` is in the forward table's image and
survives the reverse-then-forward round trip. -/
theorem forward_reverse_roundtrip_witness :
    codes.NotFound ∈ forwardImage ∧
    Gostacode.GRPCCodeFromHTTPStatusCode
      (Gostacode.HTTPStatusCodeFromGRPCCode codes.NotFound) = codes.NotFound :=
  ⟨by decide, forward_reverse_roundtrip codes.NotFound (by decide)⟩

/-- Claim C9: there are a recognized gRPC code (`Internal`) and an
unrecognized value (999) on which `HTTPStatusCodeFromGRPCCode` returns the
same 500, so a caller cannot distinguish an explicitly mapped result from
the unmapped-input fallback by the returned value alone. -/
theorem fallback_ambiguity :
    ∃ r q : Nat, r ∈ allCodes ∧ q ∉ allCodes ∧
      Gostacode.HTTPStatusCodeFromGRPCCode r = 500 ∧
      Gostacode.HTTPStatusCodeFromGRPCCode q = 500 := by
  refine ⟨codes.Internal, 999, by decide, by decide, by decide, by decide⟩

/-- Claim C10: for every integer input, `GRPCCodeFromHTTPStatusCode`
returns one of exactly 12 gRPC codes — the forward table's 11-code image
plus the fallback `Unknown`; in particular it never returns `Canceled`,
`FailedPrecondition`, `Aborted`, `OutOfRange`, `DataLoss`, or any value
outside the recognized enumeration. -/
theorem forward_range_invariant :
    (∀ s : Int, Gostacode.GRPCCodeFromHTTPStatusCode s ∈ forwardImageWithUnknown) ∧
    ([codes.Canceled, codes.FailedPrecondition, codes.Aborted,
      codes.OutOfRange, codes.DataLoss].all
        fun c => !(forwardImageWithUnknown.contains c)) = true ∧
    (forwardImageWithUnknown.all fun c => allCodes.contains c) = true := by
  exact ⟨grpc_forward_range, by decide, by decide⟩
